import Mathlib

/-!
Shallow embedding of `custom_components/ics2000/light.py`: the `repeat`
retry loop, the thread-name based in-flight detection of
`KlikAanKlikUitThread`, and the optimistic device proxy
`KlikAanKlikUitDevice` with its `turn_on` / `turn_off` / `color_mode`
operations.

Effects are made explicit: a run of the retry loop is a list of events
(invocations of the hub-bound callable and sleeps), a call to
`turn_on` / `turn_off` returns the updated device together with the worker
thread it spawned (if any), and the set of alive threads is passed in as the
list of their names.
-/

/-- Events produced by one run of the `repeat` retry loop: `invoke i` is the
i-th invocation (0-indexed) of the hub-bound callable, `sleepFor d` is a
`time.sleep` of `d` seconds. -/
inductive RepeatEv where
  | invoke (i : Nat)
  | sleepFor (d : Nat)
  deriving DecidableEq

/-- Body of `repeat`: the loop `for i in range(0, tries)` calls the bound
callable once per iteration and then sleeps `sleep if i != tries - 1 else 0`
seconds.  `i` is the current loop index, the second argument the number of
remaining iterations.  `failAt = some k` models the callable raising an
exception on its k-th invocation: the invocation happens, no sleep follows,
the loop stops and the exception propagates (second component `true`). -/
def repeatAux (tries sleep : Nat) (failAt : Option Nat) (i : Nat) :
    Nat → List RepeatEv × Bool
  | 0 => ([], false)
  | rem + 1 =>
    if failAt = some i then ([RepeatEv.invoke i], true)
    else
      let rest := repeatAux tries sleep failAt (i + 1) rem
      (RepeatEv.invoke i ::
        RepeatEv.sleepFor (if i ≠ tries - 1 then sleep else 0) :: rest.1,
       rest.2)

/-- One run of `repeat tries sleep`: loop indices `0, ..., tries - 1`. -/
def repeatRun (tries sleep : Nat) (failAt : Option Nat) : List RepeatEv × Bool :=
  repeatAux tries sleep failAt 0 tries

/-- The event trace of a run of `repeat` in which the callable never raises. -/
def repeatTrace (tries sleep : Nat) : List RepeatEv :=
  (repeatRun tries sleep none).1

/-- Whether a repeat event is an invocation of the callable. -/
def isInvoke : RepeatEv → Bool
  | RepeatEv.invoke _ => true
  | RepeatEv.sleepFor _ => false

/-- Number of invocations of the callable in a repeat trace. -/
def invokeCount (tr : List RepeatEv) : Nat := (tr.filter isInvoke).length

/-- The durations of the sleeps of a repeat trace, in order. -/
def sleepDurations (tr : List RepeatEv) : List Nat :=
  tr.filterMap fun e =>
    match e with
    | RepeatEv.sleepFor d => some d
    | RepeatEv.invoke _ => none

/-- The three hub client operations the integration calls
(`hub.turn_on(entity)`, `hub.turn_off(entity)`, `hub.dim(entity, level)`). -/
inductive HubOp where
  | turn_on (entity : Nat)
  | turn_off (entity : Nat)
  | dim (entity : Nat) (level : Nat)
  deriving DecidableEq

/-- The enum `KlikAanKlikUitAction`. -/
inductive KlikAanKlikUitAction where
  | TURN_ON
  | TURN_OFF
  | DIM
  deriving DecidableEq

/-- The `value` of each `KlikAanKlikUitAction` member. -/
def KlikAanKlikUitAction.value : KlikAanKlikUitAction → String
  | KlikAanKlikUitAction.TURN_ON => "on"
  | KlikAanKlikUitAction.TURN_OFF => "off"
  | KlikAanKlikUitAction.DIM => "dim"

/-- The thread name assigned in `KlikAanKlikUitThread.__init__`:
the literal `kaku`, then `action.value`, then the device id. -/
def kakuName (action : KlikAanKlikUitAction) (device_id : Nat) : String :=
  "kaku" ++ action.value ++ toString device_id

/-- `KlikAanKlikUitThread.has_running_threads`: scan the alive threads
(given here by their names) for one whose name is among the three canonical
names derived from the device id. -/
def has_running_threads (running : List String) (device_id : Nat) : Bool :=
  let running_threads := running.filter fun n =>
    ([kakuName KlikAanKlikUitAction.TURN_ON device_id,
      kakuName KlikAanKlikUitAction.DIM device_id,
      kakuName KlikAanKlikUitAction.TURN_OFF device_id]).contains n
  !running_threads.isEmpty

/-- A spawned `KlikAanKlikUitThread`: its constructor arguments (action,
device id) and the `repeat` parameters it will run (`tries`, `sleep`, and the
hub operation the callable plus its kwargs are bound to). -/
structure SpawnedWorker where
  action : KlikAanKlikUitAction
  device_id : Nat
  tries : Nat
  sleep : Nat
  op : HubOp
  deriving DecidableEq

/-- The name given to the spawned thread by `KlikAanKlikUitThread.__init__`. -/
def SpawnedWorker.threadName (w : SpawnedWorker) : String :=
  kakuName w.action w.device_id

/-- The hub calls issued by a repeat trace: each invocation of the bound
callable issues the bound hub operation once. -/
def hubCallsOf (op : HubOp) (tr : List RepeatEv) : List HubOp :=
  tr.filterMap fun e =>
    match e with
    | RepeatEv.invoke _ => some op
    | RepeatEv.sleepFor _ => none

/-- The hub calls a spawned worker issues when it runs (the callable raising
on its k-th invocation when `failAt = some k`). -/
def workerHubCalls (w : SpawnedWorker) (failAt : Option Nat) : List HubOp :=
  hubCallsOf w.op (repeatRun w.tries w.sleep failAt).1

/-- The color modes this integration uses (`ColorMode.BRIGHTNESS` and
`ColorMode.ONOFF` of the platform's light component). -/
inductive ColorMode where
  | BRIGHTNESS
  | ONOFF
  deriving DecidableEq

/-- The kind of an external hub device: an `ics2000.Devices.Dimmer` or a
plain on/off `Device`. -/
inductive DeviceKind where
  | dimmer
  | onOffOnly
  deriving DecidableEq

/-- The external hub device handed to the proxy at setup: display name,
identifier and kind.  (The hub connection handle the proxy also copies is
represented by tagging every hub operation with the entity id.) -/
structure ExtDevice where
  name : String
  id : Nat
  kind : DeviceKind
  deriving DecidableEq

/-- The device proxy `KlikAanKlikUitDevice`: retry configuration, copied
device attributes, cached on/off state (`none` = unknown), cached brightness
(`none` = unset) and the supported color modes fixed at construction. -/
structure KlikAanKlikUitDevice where
  tries : Nat
  sleep : Nat
  _name : String
  _id : Nat
  _state : Option Bool
  _brightness : Option Nat
  _attr_supported_color_modes : List ColorMode
  deriving DecidableEq

/-- `KlikAanKlikUitDevice.__init__`: copy name/id, state and brightness start
unset, and the supported color modes are `BRIGHTNESS` for a `Dimmer` and
`ONOFF` otherwise. -/
def KlikAanKlikUitDevice.init (device : ExtDevice) (tries sleep : Nat) :
    KlikAanKlikUitDevice :=
  { tries := tries
    sleep := sleep
    _name := device.name
    _id := device.id
    _state := none
    _brightness := none
    _attr_supported_color_modes :=
      if device.kind = DeviceKind.dimmer then [ColorMode.BRIGHTNESS]
      else [ColorMode.ONOFF] }

/-- The `name` property. -/
def KlikAanKlikUitDevice.name (self : KlikAanKlikUitDevice) : String :=
  self._name

/-- The `brightness` property. -/
def KlikAanKlikUitDevice.brightness (self : KlikAanKlikUitDevice) :
    Option Nat :=
  self._brightness

/-- The `is_on` property (returns `self._state`, a `bool | None`). -/
def KlikAanKlikUitDevice.is_on (self : KlikAanKlikUitDevice) : Option Bool :=
  self._state

/-- Truthiness of an optional integer as tested by `if self._brightness:`
(both `None` and `0` are falsy). -/
def pyTruthy : Option Nat → Bool
  | none => false
  | some n => n != 0

/-- The `color_mode` property: `BRIGHTNESS` when the cached brightness is
truthy, `ONOFF` otherwise. -/
def KlikAanKlikUitDevice.color_mode (self : KlikAanKlikUitDevice) :
    ColorMode :=
  if pyTruthy self._brightness then ColorMode.BRIGHTNESS else ColorMode.ONOFF

/-- Whether `ColorMode.BRIGHTNESS` is among the supported color modes fixed
at construction (i.e. the device was a `Dimmer`). -/
def KlikAanKlikUitDevice.brightnessCapable (self : KlikAanKlikUitDevice) :
    Bool :=
  self._attr_supported_color_modes.contains ColorMode.BRIGHTNESS

/-- `math.ceil(brightness / 17)` for a nonnegative integer brightness. -/
def dimLevel (brightness : Nat) : Nat := (brightness + 16) / 17

/-- `KlikAanKlikUitDevice.turn_on`: drop the request when a thread for this
device id is alive; otherwise record the requested brightness
(`kwargs.get(ATTR_BRIGHTNESS, 255)`), spawn a `TURN_ON` worker bound to
`hub.turn_on` when `is_on is None or not is_on`, else a `DIM` worker bound to
`hub.dim` at level `ceil(brightness / 17)`, and finally set the cached state
to on. -/
def KlikAanKlikUitDevice.turn_on (self : KlikAanKlikUitDevice)
    (running : List String) (attrBrightness : Option Nat) :
    KlikAanKlikUitDevice × Option SpawnedWorker :=
  if has_running_threads running self._id then (self, none)
  else
    let b := attrBrightness.getD 255
    let self1 := { self with _brightness := some b }
    if self1.is_on = none ∨ self1.is_on = some false then
      ({ self1 with _state := some true },
       some { action := KlikAanKlikUitAction.TURN_ON
              device_id := self._id
              tries := self.tries
              sleep := self.sleep
              op := HubOp.turn_on self._id })
    else
      ({ self1 with _state := some true },
       some { action := KlikAanKlikUitAction.DIM
              device_id := self._id
              tries := self.tries
              sleep := self.sleep
              op := HubOp.dim self._id (dimLevel b) })

/-- `KlikAanKlikUitDevice.turn_off`: drop the request when a thread for this
device id is alive; otherwise spawn a `TURN_OFF` worker bound to
`hub.turn_off` and set the cached state to off. -/
def KlikAanKlikUitDevice.turn_off (self : KlikAanKlikUitDevice)
    (running : List String) :
    KlikAanKlikUitDevice × Option SpawnedWorker :=
  if has_running_threads running self._id then (self, none)
  else
    ({ self with _state := some false },
     some { action := KlikAanKlikUitAction.TURN_OFF
            device_id := self._id
            tries := self.tries
            sleep := self.sleep
            op := HubOp.turn_off self._id })

/-- `KlikAanKlikUitDevice.update`: `pass`. -/
def KlikAanKlikUitDevice.update (self : KlikAanKlikUitDevice) :
    KlikAanKlikUitDevice :=
  self

/-- The whole picture for one device proxy: the proxy, the alive worker
threads, and the hub calls issued so far (by completed workers). -/
structure Sys where
  dev : KlikAanKlikUitDevice
  workers : List SpawnedWorker
  hubTrace : List HubOp
  deriving DecidableEq

/-- The names of the alive worker threads (what `threading.enumerate()`
yields to `has_running_threads`). -/
def runningNames (s : Sys) : List String :=
  s.workers.map SpawnedWorker.threadName

/-- The events that touch a device proxy: the platform calling `turn_on`,
`turn_off` or `update`, and a worker thread finishing (at index `i` of the
alive list; `failAt = some k` when its callable raised on invocation `k`),
which appends the hub calls the worker issued and removes it from the alive
list. -/
inductive SysEv where
  | callTurnOn (attrBrightness : Option Nat)
  | callTurnOff
  | callUpdate
  | workerDone (i : Nat) (failAt : Option Nat)
  deriving DecidableEq

/-- One step of the system. -/
def step (s : Sys) : SysEv → Sys
  | SysEv.callTurnOn b =>
      let r := s.dev.turn_on (runningNames s) b
      { s with dev := r.1, workers := s.workers ++ r.2.toList }
  | SysEv.callTurnOff =>
      let r := s.dev.turn_off (runningNames s)
      { s with dev := r.1, workers := s.workers ++ r.2.toList }
  | SysEv.callUpdate => { s with dev := s.dev.update }
  | SysEv.workerDone i failAt =>
      match s.workers.get? i with
      | some w =>
          { s with workers := s.workers.eraseIdx i
                   hubTrace := s.hubTrace ++ workerHubCalls w failAt }
      | none => s

/-- Run a sequence of system events. -/
def steps (s : Sys) (evs : List SysEv) : Sys := evs.foldl step s

/-- Classification of hub calls: a `dim` call. -/
def isDimCall : HubOp → Bool
  | HubOp.dim _ _ => true
  | _ => false

/-- Classification of hub calls: a `turn_on` call. -/
def isTurnOnCall : HubOp → Bool
  | HubOp.turn_on _ => true
  | _ => false

/-- Classification of hub calls: a `turn_off` call. -/
def isTurnOffCall : HubOp → Bool
  | HubOp.turn_off _ => true
  | _ => false

/-! Helper lemmas about the retry loop. -/

theorem repeatAux_none_succ (tries sleep i r : Nat) :
    repeatAux tries sleep none i (r + 1) =
      (RepeatEv.invoke i ::
         RepeatEv.sleepFor (if i ≠ tries - 1 then sleep else 0) ::
           (repeatAux tries sleep none (i + 1) r).1,
       (repeatAux tries sleep none (i + 1) r).2) := by
  simp [repeatAux]

theorem repeatAux_some_succ (tries sleep i k r : Nat) :
    repeatAux tries sleep (some k) i (r + 1) =
      if k = i then ([RepeatEv.invoke i], true)
      else
        (RepeatEv.invoke i ::
           RepeatEv.sleepFor (if i ≠ tries - 1 then sleep else 0) ::
             (repeatAux tries sleep (some k) (i + 1) r).1,
         (repeatAux tries sleep (some k) (i + 1) r).2) := by
  by_cases h : k = i
  · subst h; simp [repeatAux]
  · simp [repeatAux, h, Ne.symm h]

theorem invokeCount_cons (e : RepeatEv) (tr : List RepeatEv) :
    invokeCount (e :: tr) = (if isInvoke e then 1 else 0) + invokeCount tr := by
  simp only [invokeCount, List.filter_cons]
  by_cases h : isInvoke e <;> simp [h, Nat.add_comm]

theorem sleepDurations_cons (e : RepeatEv) (tr : List RepeatEv) :
    sleepDurations (e :: tr) =
      (match e with
       | RepeatEv.sleepFor d => [d]
       | RepeatEv.invoke _ => []) ++ sleepDurations tr := by
  cases e <;> simp [sleepDurations]

theorem hubCallsOf_cons (op : HubOp) (e : RepeatEv) (tr : List RepeatEv) :
    hubCallsOf op (e :: tr) =
      (if isInvoke e then [op] else []) ++ hubCallsOf op tr := by
  cases e <;> simp [hubCallsOf, isInvoke]

theorem repeatAux_none_invokeCount (tries sleep : Nat) :
    ∀ rem i, invokeCount (repeatAux tries sleep none i rem).1 = rem := by
  intro rem
  induction rem with
  | zero => intro i; rfl
  | succ r ih =>
    intro i
    rw [repeatAux_none_succ, invokeCount_cons, invokeCount_cons, ih]
    simp [isInvoke]
    omega

theorem hubCallsOf_repeatAux_none (tries sleep : Nat) (op : HubOp) :
    ∀ rem i, hubCallsOf op (repeatAux tries sleep none i rem).1 =
      List.replicate rem op := by
  intro rem
  induction rem with
  | zero => intro i; rfl
  | succ r ih =>
    intro i
    rw [repeatAux_none_succ, hubCallsOf_cons, hubCallsOf_cons, ih]
    simp [isInvoke, List.replicate_succ]

theorem sleepDurations_repeatAux_none (tries sleep : Nat) :
    ∀ rem i, i + rem = tries → 1 ≤ rem →
      sleepDurations (repeatAux tries sleep none i rem).1 =
        List.replicate (rem - 1) sleep ++ [0] := by
  intro rem
  induction rem with
  | zero => intro i _ h1; omega
  | succ r ih =>
    intro i hsum _
    rw [repeatAux_none_succ, sleepDurations_cons, sleepDurations_cons]
    cases r with
    | zero =>
      have hi : i = tries - 1 := by omega
      simp [sleepDurations, repeatAux, hi]
    | succ r' =>
      have hne : i ≠ tries - 1 := by omega
      have hr : 1 ≤ r' + 1 := by omega
      rw [ih (i + 1) (by omega) hr]
      simp [hne, List.replicate_succ]

theorem get_repeatAux_none (tries sleep : Nat) :
    ∀ rem i k, k < rem →
      (repeatAux tries sleep none i rem).1.get? (2 * k) =
          some (RepeatEv.invoke (i + k)) ∧
      (repeatAux tries sleep none i rem).1.get? (2 * k + 1) =
          some (RepeatEv.sleepFor
            (if i + k ≠ tries - 1 then sleep else 0)) := by
  intro rem
  induction rem with
  | zero => intro i k h; omega
  | succ r ih =>
    intro i k hk
    rw [repeatAux_none_succ]
    cases k with
    | zero => simp
    | succ k' =>
      have h2 : 2 * (k' + 1) = 2 * k' + 1 + 1 := by ring
      have hik : i + (k' + 1) = (i + 1) + k' := by omega
      rw [h2, hik]
      have := ih (i + 1) k' (by omega)
      simpa [List.get?_cons_succ] using this

theorem repeatAux_fail (tries sleep : Nat) :
    ∀ rem i k, i ≤ k → k < i + rem →
      (repeatAux tries sleep (some k) i rem).2 = true ∧
      invokeCount (repeatAux tries sleep (some k) i rem).1 = k - i + 1 := by
  intro rem
  induction rem with
  | zero => intro i k h1 h2; omega
  | succ r ih =>
    intro i k h1 h2
    rw [repeatAux_some_succ]
    by_cases hik : k = i
    · simp [hik, invokeCount, isInvoke]
    · have := ih (i + 1) k (by omega) (by omega)
      simp only [hik, if_false]
      rw [invokeCount_cons, invokeCount_cons]
      refine ⟨this.1, ?_⟩
      rw [this.2]
      simp [isInvoke]
      omega

theorem repeatAux_none_snd (tries sleep : Nat) :
    ∀ rem i, (repeatAux tries sleep none i rem).2 = false := by
  intro rem
  induction rem with
  | zero => intro i; rfl
  | succ r ih =>
    intro i
    rw [repeatAux_none_succ]
    exact ih (i + 1)

/-- The retry loop with a callable that never raises does not raise. -/
theorem repeatRun_none_noRaise (tries sleep : Nat) :
    (repeatRun tries sleep none).2 = false :=
  repeatAux_none_snd tries sleep tries 0

/-- A worker whose callable never raises issues its bound hub operation once
per try. -/
theorem workerHubCalls_none (w : SpawnedWorker) :
    workerHubCalls w none = List.replicate w.tries w.op := by
  show hubCallsOf w.op (repeatAux w.tries w.sleep none 0 w.tries).1 = _
  exact hubCallsOf_repeatAux_none w.tries w.sleep w.op w.tries 0

/-! Helper lemmas about in-flight detection and the proxy operations. -/

/-- If the canonical name of some action for device `d` occurs among the
alive thread names, `has_running_threads` reports `true`. -/
theorem has_running_threads_of_mem (running : List String)
    (a : KlikAanKlikUitAction) (d : Nat) (h : kakuName a d ∈ running) :
    has_running_threads running d = true := by
  unfold has_running_threads
  simp only [Bool.not_eq_true', List.isEmpty_eq_false, ne_eq,
    List.filter_eq_nil_iff, not_forall]
  refine ⟨kakuName a d, h, ?_⟩
  rw [not_not]
  cases a <;> simp

/-- `turn_on` when no thread for the device is alive and the cached state is
not on: record the brightness, spawn the TURN_ON worker, set the state on. -/
theorem turn_on_not_on_eq (self : KlikAanKlikUitDevice) (running : List String)
    (b : Option Nat) (h1 : has_running_threads running self._id = false)
    (h2 : self._state ≠ some true) :
    self.turn_on running b =
      ({ self with _brightness := some (b.getD 255), _state := some true },
       some { action := KlikAanKlikUitAction.TURN_ON
              device_id := self._id
              tries := self.tries
              sleep := self.sleep
              op := HubOp.turn_on self._id }) := by
  unfold KlikAanKlikUitDevice.turn_on
  rw [h1]
  have hcond : ({ self with _brightness := some (b.getD 255) } :
        KlikAanKlikUitDevice).is_on = none ∨
      ({ self with _brightness := some (b.getD 255) } :
        KlikAanKlikUitDevice).is_on = some false := by
    show self._state = none ∨ self._state = some false
    cases hs : self._state with
    | none => exact Or.inl rfl
    | some v =>
      cases v with
      | false => exact Or.inr rfl
      | true => exact absurd hs h2
  simp only [Bool.false_eq_true, if_false]
  rw [if_pos hcond]

/-- `turn_on` when no thread for the device is alive and the cached state is
on: record the brightness and spawn the DIM worker at the converted level. -/
theorem turn_on_already_on_eq (self : KlikAanKlikUitDevice)
    (running : List String) (b : Option Nat)
    (h1 : has_running_threads running self._id = false)
    (h2 : self._state = some true) :
    self.turn_on running b =
      ({ self with _brightness := some (b.getD 255), _state := some true },
       some { action := KlikAanKlikUitAction.DIM
              device_id := self._id
              tries := self.tries
              sleep := self.sleep
              op := HubOp.dim self._id (dimLevel (b.getD 255)) }) := by
  unfold KlikAanKlikUitDevice.turn_on
  rw [h1]
  have hcond : ¬ (({ self with _brightness := some (b.getD 255) } :
        KlikAanKlikUitDevice).is_on = none ∨
      ({ self with _brightness := some (b.getD 255) } :
        KlikAanKlikUitDevice).is_on = some false) := by
    show ¬ (self._state = none ∨ self._state = some false)
    rw [h2]
    simp
  simp only [Bool.false_eq_true, if_false]
  rw [if_neg hcond]

/-- `turn_off` when no thread for the device is alive: spawn the TURN_OFF
worker and set the state off; brightness is untouched. -/
theorem turn_off_eq (self : KlikAanKlikUitDevice) (running : List String)
    (h1 : has_running_threads running self._id = false) :
    self.turn_off running =
      ({ self with _state := some false },
       some { action := KlikAanKlikUitAction.TURN_OFF
              device_id := self._id
              tries := self.tries
              sleep := self.sleep
              op := HubOp.turn_off self._id }) := by
  unfold KlikAanKlikUitDevice.turn_off
  rw [h1]
  simp

/-- `turn_on` never changes the retry configuration. -/
theorem turn_on_config (self : KlikAanKlikUitDevice) (running : List String)
    (b : Option Nat) :
    (self.turn_on running b).1.tries = self.tries ∧
    (self.turn_on running b).1.sleep = self.sleep := by
  cases hb : has_running_threads running self._id with
  | true => simp [KlikAanKlikUitDevice.turn_on, hb]
  | false =>
    by_cases h2 : self._state = some true
    · rw [turn_on_already_on_eq self running b hb h2]; exact ⟨rfl, rfl⟩
    · rw [turn_on_not_on_eq self running b hb h2]; exact ⟨rfl, rfl⟩

/-- `turn_off` never changes the retry configuration. -/
theorem turn_off_config (self : KlikAanKlikUitDevice) (running : List String) :
    (self.turn_off running).1.tries = self.tries ∧
    (self.turn_off running).1.sleep = self.sleep := by
  cases hb : has_running_threads running self._id with
  | true => simp [KlikAanKlikUitDevice.turn_off, hb]
  | false => rw [turn_off_eq self running hb]; exact ⟨rfl, rfl⟩

/-- A worker finishing never touches the device proxy. -/
theorem step_workerDone_dev (s : Sys) (i : Nat) (f : Option Nat) :
    (step s (SysEv.workerDone i f)).dev = s.dev := by
  show (match s.workers.get? i with
    | some w =>
        { s with workers := s.workers.eraseIdx i
                 hubTrace := s.hubTrace ++ workerHubCalls w f }
    | none => s).dev = s.dev
  cases s.workers.get? i <;> rfl

/-- No single step changes the retry configuration of the proxy. -/
theorem step_config (s : Sys) (ev : SysEv) :
    (step s ev).dev.tries = s.dev.tries ∧
    (step s ev).dev.sleep = s.dev.sleep := by
  cases ev with
  | callTurnOn b => exact turn_on_config s.dev (runningNames s) b
  | callTurnOff => exact turn_off_config s.dev (runningNames s)
  | callUpdate => exact ⟨rfl, rfl⟩
  | workerDone i f => rw [step_workerDone_dev]; exact ⟨rfl, rfl⟩

/-- No sequence of steps changes the retry configuration of the proxy. -/
theorem steps_config (s : Sys) (evs : List SysEv) :
    (steps s evs).dev.tries = s.dev.tries ∧
    (steps s evs).dev.sleep = s.dev.sleep := by
  induction evs generalizing s with
  | nil => exact ⟨rfl, rfl⟩
  | cons e es ih =>
    have h1 := step_config s e
    have h2 := ih (step s e)
    exact ⟨h2.1.trans h1.1, h2.2.trans h1.2⟩

/-- The dim level is an upper ceiling bound: the brightness never exceeds
17 times the level the hub is asked for. -/
theorem dimLevel_ceil_le (B : Nat) : B ≤ 17 * dimLevel B := by
  unfold dimLevel
  omega

/-- The dim level is the least such level, so it is exactly the ceiling of
brightness / 17. -/
theorem dimLevel_ceil_min (B l : Nat) (h : B ≤ 17 * l) : dimLevel B ≤ l := by
  unfold dimLevel
  omega

/-! The claims. -/

/-- C1: while a worker thread for the device's id (spawned with any of the
three action kinds) is alive, a `turn_on` or `turn_off` invocation for that
device is a silent no-op: the whole system state is unchanged (so zero hub
calls are issued and no worker is spawned), and the proxy itself is returned
unmodified with no worker (so neither cached on/off state nor cached
brightness is mutated). -/
theorem claim_C1_inflight_drop (s : Sys) (b : Option Nat)
    (h : ∃ w ∈ s.workers, w.device_id = s.dev._id) :
    step s (SysEv.callTurnOn b) = s ∧
    step s SysEv.callTurnOff = s ∧
    s.dev.turn_on (runningNames s) b = (s.dev, none) ∧
    s.dev.turn_off (runningNames s) = (s.dev, none) := by
  obtain ⟨w, hw, hd⟩ := h
  have hname : kakuName w.action s.dev._id ∈ runningNames s := by
    rw [← hd]
    exact List.mem_map_of_mem SpawnedWorker.threadName hw
  have hr : has_running_threads (runningNames s) s.dev._id = true :=
    has_running_threads_of_mem _ w.action _ hname
  have hon : s.dev.turn_on (runningNames s) b = (s.dev, none) := by
    unfold KlikAanKlikUitDevice.turn_on
    rw [hr]
    simp
  have hoff : s.dev.turn_off (runningNames s) = (s.dev, none) := by
    unfold KlikAanKlikUitDevice.turn_off
    rw [hr]
    simp
  refine ⟨?_, ?_, hon, hoff⟩
  · simp [step, hon]
  · simp [step, hoff]

/-- C1 witness: a concrete system with an alive TURN_ON worker for device 1
drops both commands. -/
theorem claim_C1_inflight_drop_witness :
    (∃ w ∈ ({ dev := KlikAanKlikUitDevice.init ⟨"Lamp1", 1, DeviceKind.dimmer⟩ 3 3
              workers := [⟨KlikAanKlikUitAction.TURN_ON, 1, 3, 3, HubOp.turn_on 1⟩]
              hubTrace := [] } : Sys).workers,
        w.device_id = ({ dev := KlikAanKlikUitDevice.init ⟨"Lamp1", 1, DeviceKind.dimmer⟩ 3 3
                         workers := [⟨KlikAanKlikUitAction.TURN_ON, 1, 3, 3, HubOp.turn_on 1⟩]
                         hubTrace := [] } : Sys).dev._id) ∧
    step ({ dev := KlikAanKlikUitDevice.init ⟨"Lamp1", 1, DeviceKind.dimmer⟩ 3 3
            workers := [⟨KlikAanKlikUitAction.TURN_ON, 1, 3, 3, HubOp.turn_on 1⟩]
            hubTrace := [] } : Sys) (SysEv.callTurnOn (some 100)) =
      ({ dev := KlikAanKlikUitDevice.init ⟨"Lamp1", 1, DeviceKind.dimmer⟩ 3 3
         workers := [⟨KlikAanKlikUitAction.TURN_ON, 1, 3, 3, HubOp.turn_on 1⟩]
         hubTrace := [] } : Sys) :=
  ⟨by decide,
   (claim_C1_inflight_drop
     ({ dev := KlikAanKlikUitDevice.init ⟨"Lamp1", 1, DeviceKind.dimmer⟩ 3 3
        workers := [⟨KlikAanKlikUitAction.TURN_ON, 1, 3, 3, HubOp.turn_on 1⟩]
        hubTrace := [] } : Sys) (some 100) (by decide)).1⟩

/-- C2: for tries ≥ 1 the retry loop invokes the callable exactly `tries`
times; the i-th invocation sits at trace position 2i, the sleep right after
it at position 2i + 1 has the configured duration for every invocation but
the last, and the list of sleep durations is tries - 1 copies of the
configured duration followed by a final sleep of 0 seconds (i.e. no sleeping
after the last invocation). -/
theorem claim_C2_repeat_contract (tries sleep : Nat) (h : 1 ≤ tries) :
    invokeCount (repeatTrace tries sleep) = tries ∧
    sleepDurations (repeatTrace tries sleep) =
      List.replicate (tries - 1) sleep ++ [0] ∧
    (∀ i, i < tries →
      (repeatTrace tries sleep).get? (2 * i) = some (RepeatEv.invoke i)) ∧
    (∀ i, i < tries - 1 →
      (repeatTrace tries sleep).get? (2 * i + 1) =
        some (RepeatEv.sleepFor sleep)) := by
  refine ⟨repeatAux_none_invokeCount tries sleep tries 0,
    sleepDurations_repeatAux_none tries sleep tries 0 (by omega) h, ?_, ?_⟩
  · intro i hi
    have := (get_repeatAux_none tries sleep tries 0 i hi).1
    simpa using this
  · intro i hi
    have := (get_repeatAux_none tries sleep tries 0 i (by omega)).2
    have hne : 0 + i ≠ tries - 1 := by omega
    rw [if_pos hne] at this
    simpa using this

/-- C2 witness: tries = 3, sleep = 2. -/
theorem claim_C2_repeat_contract_witness :
    invokeCount (repeatTrace 3 2) = 3 ∧
    sleepDurations (repeatTrace 3 2) = List.replicate 2 2 ++ [0] ∧
    (∀ i, i < 3 →
      (repeatTrace 3 2).get? (2 * i) = some (RepeatEv.invoke i)) ∧
    (∀ i, i < 2 →
      (repeatTrace 3 2).get? (2 * i + 1) = some (RepeatEv.sleepFor 2)) :=
  claim_C2_repeat_contract 3 2 (by decide)

/-- C3 counterexample: a device that is not brightness-capable (an on/off
only device, supported modes ONOFF) reports BRIGHTNESS color mode after a
plain `turn_on` (which caches brightness 255 for every device kind), so
`color_mode = BRIGHTNESS` does not imply brightness capability. -/
theorem claim_C3_color_mode_cex :
    ((KlikAanKlikUitDevice.init ⟨"Lamp1", 1, DeviceKind.onOffOnly⟩ 3 3).turn_on
        [] none).1.color_mode = ColorMode.BRIGHTNESS ∧
    ((KlikAanKlikUitDevice.init ⟨"Lamp1", 1, DeviceKind.onOffOnly⟩ 3 3).turn_on
        [] none).1.brightnessCapable = false := by decide

/-- C3 amended: `color_mode` returns BRIGHTNESS iff the cached brightness is
set and non-zero — independently of whether the device is
brightness-capable — and returns ONOFF in every other case. -/
theorem claim_C3_color_mode_amended (self : KlikAanKlikUitDevice) :
    (self.color_mode = ColorMode.BRIGHTNESS ↔
      ∃ b, self._brightness = some b ∧ b ≠ 0) ∧
    (self.color_mode = ColorMode.ONOFF ↔
      ¬ ∃ b, self._brightness = some b ∧ b ≠ 0) := by
  unfold KlikAanKlikUitDevice.color_mode
  cases hb : self._brightness with
  | none => simp [pyTruthy]
  | some v =>
    by_cases h0 : v = 0
    · subst h0; simp [pyTruthy]
    · simp [pyTruthy, h0]

/-- C4: with no in-flight worker and cached state unknown or off, `turn_on`
sets the cached state to on, caches the supplied brightness (default 255),
and spawns a TURN_ON worker whose run issues exactly `tries` calls to the
hub's `turn_on` and zero calls to `dim`. -/
theorem claim_C4_turn_on_when_off (self : KlikAanKlikUitDevice)
    (running : List String) (b : Option Nat)
    (h1 : has_running_threads running self._id = false)
    (h2 : self._state ≠ some true) :
    (self.turn_on running b).1._state = some true ∧
    (self.turn_on running b).1._brightness = some (b.getD 255) ∧
    (self.turn_on running b).2 =
      some { action := KlikAanKlikUitAction.TURN_ON
             device_id := self._id
             tries := self.tries
             sleep := self.sleep
             op := HubOp.turn_on self._id } ∧
    workerHubCalls { action := KlikAanKlikUitAction.TURN_ON
                     device_id := self._id
                     tries := self.tries
                     sleep := self.sleep
                     op := HubOp.turn_on self._id } none =
      List.replicate self.tries (HubOp.turn_on self._id) ∧
    (workerHubCalls { action := KlikAanKlikUitAction.TURN_ON
                      device_id := self._id
                      tries := self.tries
                      sleep := self.sleep
                      op := HubOp.turn_on self._id } none).countP
        isTurnOnCall = self.tries ∧
    (workerHubCalls { action := KlikAanKlikUitAction.TURN_ON
                      device_id := self._id
                      tries := self.tries
                      sleep := self.sleep
                      op := HubOp.turn_on self._id } none).countP
        isDimCall = 0 := by
  rw [turn_on_not_on_eq self running b h1 h2]
  have hcalls := workerHubCalls_none
    (⟨KlikAanKlikUitAction.TURN_ON, self._id, self.tries, self.sleep,
      HubOp.turn_on self._id⟩ : SpawnedWorker)
  refine ⟨rfl, rfl, rfl, hcalls, ?_, ?_⟩
  · rw [hcalls, List.countP_replicate]
    simp [isTurnOnCall]
  · rw [hcalls, List.countP_replicate]
    simp [isDimCall]

/-- C4 witness: fresh dimmer device (state unknown), no alive threads, no
brightness supplied. -/
theorem claim_C4_turn_on_when_off_witness :
    ((KlikAanKlikUitDevice.init ⟨"Lamp1", 1, DeviceKind.dimmer⟩ 3 3).turn_on
        [] none).1._state = some true ∧
    ((KlikAanKlikUitDevice.init ⟨"Lamp1", 1, DeviceKind.dimmer⟩ 3 3).turn_on
        [] none).1._brightness = some ((none : Option Nat).getD 255) ∧
    ((KlikAanKlikUitDevice.init ⟨"Lamp1", 1, DeviceKind.dimmer⟩ 3 3).turn_on
        [] none).2 =
      some { action := KlikAanKlikUitAction.TURN_ON
             device_id := 1
             tries := 3
             sleep := 3
             op := HubOp.turn_on 1 } ∧
    workerHubCalls { action := KlikAanKlikUitAction.TURN_ON
                     device_id := 1
                     tries := 3
                     sleep := 3
                     op := HubOp.turn_on 1 } none =
      List.replicate 3 (HubOp.turn_on 1) ∧
    (workerHubCalls { action := KlikAanKlikUitAction.TURN_ON
                      device_id := 1
                      tries := 3
                      sleep := 3
                      op := HubOp.turn_on 1 } none).countP
        isTurnOnCall = 3 ∧
    (workerHubCalls { action := KlikAanKlikUitAction.TURN_ON
                      device_id := 1
                      tries := 3
                      sleep := 3
                      op := HubOp.turn_on 1 } none).countP
        isDimCall = 0 :=
  claim_C4_turn_on_when_off
    (KlikAanKlikUitDevice.init ⟨"Lamp1", 1, DeviceKind.dimmer⟩ 3 3) [] none
    (by decide) (by decide)

/-- C5: with no in-flight worker and cached state on, `turn_on` with
brightness B spawns a DIM worker whose run issues exactly `tries` calls to
the hub's `dim` at level `dimLevel B` — which is exactly ceil(B / 17): the
least level l with B ≤ 17 l — and zero calls to `turn_on`, leaving the
cached state on. -/
theorem claim_C5_turn_on_when_on (self : KlikAanKlikUitDevice)
    (running : List String) (B : Nat)
    (h1 : has_running_threads running self._id = false)
    (h2 : self._state = some true) :
    (self.turn_on running (some B)).1._state = some true ∧
    (self.turn_on running (some B)).2 =
      some { action := KlikAanKlikUitAction.DIM
             device_id := self._id
             tries := self.tries
             sleep := self.sleep
             op := HubOp.dim self._id (dimLevel B) } ∧
    workerHubCalls { action := KlikAanKlikUitAction.DIM
                     device_id := self._id
                     tries := self.tries
                     sleep := self.sleep
                     op := HubOp.dim self._id (dimLevel B) } none =
      List.replicate self.tries (HubOp.dim self._id (dimLevel B)) ∧
    (workerHubCalls { action := KlikAanKlikUitAction.DIM
                      device_id := self._id
                      tries := self.tries
                      sleep := self.sleep
                      op := HubOp.dim self._id (dimLevel B) } none).countP
        isDimCall = self.tries ∧
    (workerHubCalls { action := KlikAanKlikUitAction.DIM
                      device_id := self._id
                      tries := self.tries
                      sleep := self.sleep
                      op := HubOp.dim self._id (dimLevel B) } none).countP
        isTurnOnCall = 0 ∧
    B ≤ 17 * dimLevel B ∧
    (∀ l, B ≤ 17 * l → dimLevel B ≤ l) := by
  rw [turn_on_already_on_eq self running (some B) h1 h2]
  have hcalls := workerHubCalls_none
    (⟨KlikAanKlikUitAction.DIM, self._id, self.tries, self.sleep,
      HubOp.dim self._id (dimLevel B)⟩ : SpawnedWorker)
  refine ⟨rfl, rfl, hcalls, ?_, ?_, dimLevel_ceil_le B, dimLevel_ceil_min B⟩
  · rw [hcalls, List.countP_replicate]
    simp [isDimCall]
  · rw [hcalls, List.countP_replicate]
    simp [isTurnOnCall]

/-- C5 witness: device cached on, brightness 34 (level ceil(34/17) = 2),
tries = 3. -/
theorem claim_C5_turn_on_when_on_witness :
    (({ tries := 3, sleep := 0, _name := "Lamp1", _id := 1,
        _state := some true, _brightness := some 255,
        _attr_supported_color_modes := [ColorMode.BRIGHTNESS] } :
          KlikAanKlikUitDevice).turn_on [] (some 34)).1._state = some true ∧
    (({ tries := 3, sleep := 0, _name := "Lamp1", _id := 1,
        _state := some true, _brightness := some 255,
        _attr_supported_color_modes := [ColorMode.BRIGHTNESS] } :
          KlikAanKlikUitDevice).turn_on [] (some 34)).2 =
      some { action := KlikAanKlikUitAction.DIM
             device_id := 1
             tries := 3
             sleep := 0
             op := HubOp.dim 1 (dimLevel 34) } ∧
    workerHubCalls { action := KlikAanKlikUitAction.DIM
                     device_id := 1
                     tries := 3
                     sleep := 0
                     op := HubOp.dim 1 (dimLevel 34) } none =
      List.replicate 3 (HubOp.dim 1 (dimLevel 34)) ∧
    (workerHubCalls { action := KlikAanKlikUitAction.DIM
                      device_id := 1
                      tries := 3
                      sleep := 0
                      op := HubOp.dim 1 (dimLevel 34) } none).countP
        isDimCall = 3 ∧
    (workerHubCalls { action := KlikAanKlikUitAction.DIM
                      device_id := 1
                      tries := 3
                      sleep := 0
                      op := HubOp.dim 1 (dimLevel 34) } none).countP
        isTurnOnCall = 0 ∧
    34 ≤ 17 * dimLevel 34 ∧
    (∀ l, 34 ≤ 17 * l → dimLevel 34 ≤ l) :=
  claim_C5_turn_on_when_on
    { tries := 3, sleep := 0, _name := "Lamp1", _id := 1,
      _state := some true, _brightness := some 255,
      _attr_supported_color_modes := [ColorMode.BRIGHTNESS] } [] 34
    (by decide) (by decide)

/-- C6: the brightness-to-level mapping used by the DIM branch is monotonic
non-decreasing, maps 255 to 15 and 1 to 1, and maps 0 to 0 — the code does
not clamp a 0 level up to the hub's minimum valid level 1. -/
theorem claim_C6_dimLevel_props :
    (∀ B1 B2, B1 < B2 → dimLevel B1 ≤ dimLevel B2) ∧
    dimLevel 255 = 15 ∧ dimLevel 1 = 1 ∧ dimLevel 0 = 0 := by
  refine ⟨?_, by decide, by decide, by decide⟩
  intro B1 B2 h
  unfold dimLevel
  exact Nat.div_le_div_right (by omega)

/-- C6 witness: monotonicity at a concrete pair. -/
theorem claim_C6_dimLevel_props_witness :
    dimLevel 100 ≤ dimLevel 200 :=
  claim_C6_dimLevel_props.1 100 200 (by decide)

/-- C7: with no in-flight worker, `turn_off` — whatever the prior cached
state — sets the cached state to off, leaves the cached brightness (and the
retry configuration) unchanged, and spawns a TURN_OFF worker whose run
issues exactly `tries` calls to the hub's `turn_off`. -/
theorem claim_C7_turn_off (self : KlikAanKlikUitDevice)
    (running : List String)
    (h1 : has_running_threads running self._id = false) :
    (self.turn_off running).1._state = some false ∧
    (self.turn_off running).1._brightness = self._brightness ∧
    (self.turn_off running).1.tries = self.tries ∧
    (self.turn_off running).1.sleep = self.sleep ∧
    (self.turn_off running).2 =
      some { action := KlikAanKlikUitAction.TURN_OFF
             device_id := self._id
             tries := self.tries
             sleep := self.sleep
             op := HubOp.turn_off self._id } ∧
    workerHubCalls { action := KlikAanKlikUitAction.TURN_OFF
                     device_id := self._id
                     tries := self.tries
                     sleep := self.sleep
                     op := HubOp.turn_off self._id } none =
      List.replicate self.tries (HubOp.turn_off self._id) ∧
    (workerHubCalls { action := KlikAanKlikUitAction.TURN_OFF
                      device_id := self._id
                      tries := self.tries
                      sleep := self.sleep
                      op := HubOp.turn_off self._id } none).countP
        isTurnOffCall = self.tries := by
  rw [turn_off_eq self running h1]
  have hcalls := workerHubCalls_none
    (⟨KlikAanKlikUitAction.TURN_OFF, self._id, self.tries, self.sleep,
      HubOp.turn_off self._id⟩ : SpawnedWorker)
  refine ⟨rfl, rfl, rfl, rfl, rfl, hcalls, ?_⟩
  rw [hcalls, List.countP_replicate]
  simp [isTurnOffCall]

/-- C7 witness: a device cached on with a cached brightness; `turn_off`
flips the state and keeps the brightness. -/
theorem claim_C7_turn_off_witness :
    (({ tries := 2, sleep := 1, _name := "Lamp1", _id := 5,
        _state := some true, _brightness := some 42,
        _attr_supported_color_modes := [ColorMode.BRIGHTNESS] } :
          KlikAanKlikUitDevice).turn_off []).1._state = some false ∧
    (({ tries := 2, sleep := 1, _name := "Lamp1", _id := 5,
        _state := some true, _brightness := some 42,
        _attr_supported_color_modes := [ColorMode.BRIGHTNESS] } :
          KlikAanKlikUitDevice).turn_off []).1._brightness = some 42 ∧
    (({ tries := 2, sleep := 1, _name := "Lamp1", _id := 5,
        _state := some true, _brightness := some 42,
        _attr_supported_color_modes := [ColorMode.BRIGHTNESS] } :
          KlikAanKlikUitDevice).turn_off []).1.tries = 2 ∧
    (({ tries := 2, sleep := 1, _name := "Lamp1", _id := 5,
        _state := some true, _brightness := some 42,
        _attr_supported_color_modes := [ColorMode.BRIGHTNESS] } :
          KlikAanKlikUitDevice).turn_off []).1.sleep = 1 ∧
    (({ tries := 2, sleep := 1, _name := "Lamp1", _id := 5,
        _state := some true, _brightness := some 42,
        _attr_supported_color_modes := [ColorMode.BRIGHTNESS] } :
          KlikAanKlikUitDevice).turn_off []).2 =
      some { action := KlikAanKlikUitAction.TURN_OFF
             device_id := 5
             tries := 2
             sleep := 1
             op := HubOp.turn_off 5 } ∧
    workerHubCalls { action := KlikAanKlikUitAction.TURN_OFF
                     device_id := 5
                     tries := 2
                     sleep := 1
                     op := HubOp.turn_off 5 } none =
      List.replicate 2 (HubOp.turn_off 5) ∧
    (workerHubCalls { action := KlikAanKlikUitAction.TURN_OFF
                      device_id := 5
                      tries := 2
                      sleep := 1
                      op := HubOp.turn_off 5 } none).countP
        isTurnOffCall = 2 :=
  claim_C7_turn_off
    { tries := 2, sleep := 1, _name := "Lamp1", _id := 5,
      _state := some true, _brightness := some 42,
      _attr_supported_color_modes := [ColorMode.BRIGHTNESS] } []
    (by decide)

/-- C8: if the callable raises on try k (k < tries), the retry loop stops
having performed exactly k + 1 invocations and the exception propagates out
of the loop; a worker finishing — normally or by raising — never touches the
device proxy, whose cached state remains whatever the triggering operation
optimistically set. -/
theorem claim_C8_exception_aborts (tries sleep k : Nat) (h : k < tries) :
    (repeatRun tries sleep (some k)).2 = true ∧
    invokeCount (repeatRun tries sleep (some k)).1 = k + 1 ∧
    (∀ s : Sys, ∀ i : Nat,
      (step s (SysEv.workerDone i (some k))).dev = s.dev) := by
  have hf := repeatAux_fail tries sleep tries 0 k (Nat.zero_le k) (by omega)
  exact ⟨hf.1, by simpa using hf.2,
    fun s i => step_workerDone_dev s i (some k)⟩

/-- C8 witness: tries = 3, failure on the second try (k = 1). -/
theorem claim_C8_exception_aborts_witness :
    (repeatRun 3 0 (some 1)).2 = true ∧
    invokeCount (repeatRun 3 0 (some 1)).1 = 2 ∧
    (∀ s : Sys, ∀ i : Nat,
      (step s (SysEv.workerDone i (some 1))).dev = s.dev) :=
  claim_C8_exception_aborts 3 0 1 (by decide)

/-- C9: across any sequence of system events the retry configuration of the
proxy never changes after construction; a finishing worker never mutates the
proxy, and `update` is a no-op on it. (The only events left — the turn_on
and turn_off calls — are thus the only mutators of cached state.) -/
theorem claim_C9_state_mutators (s : Sys) (evs : List SysEv) :
    (steps s evs).dev.tries = s.dev.tries ∧
    (steps s evs).dev.sleep = s.dev.sleep ∧
    (∀ i f, (step s (SysEv.workerDone i f)).dev = s.dev) ∧
    (step s SysEv.callUpdate).dev = s.dev ∧
    KlikAanKlikUitDevice.update s.dev = s.dev :=
  ⟨(steps_config s evs).1, (steps_config s evs).2,
   fun i f => step_workerDone_dev s i f, rfl, rfl⟩

/-- C10: the name `KlikAanKlikUitThread.__init__` assigns to a worker is
always one of the three canonical names `has_running_threads` checks for the
worker's device id, so as long as a worker it spawned is alive (its name
among the alive thread names), `has_running_threads` reports true for that
device — in-flight detection never misses a worker it spawned itself. -/
theorem claim_C10_thread_names (w : SpawnedWorker) (running : List String)
    (h : w.threadName ∈ running) :
    w.threadName ∈
      [kakuName KlikAanKlikUitAction.TURN_ON w.device_id,
       kakuName KlikAanKlikUitAction.DIM w.device_id,
       kakuName KlikAanKlikUitAction.TURN_OFF w.device_id] ∧
    has_running_threads running w.device_id = true := by
  constructor
  · show kakuName w.action w.device_id ∈ _
    cases w.action <;> simp
  · exact has_running_threads_of_mem running w.action w.device_id h

/-- C10 witness: a DIM worker for device 7 among the alive threads. -/
theorem claim_C10_thread_names_witness :
    (SpawnedWorker.threadName
        ⟨KlikAanKlikUitAction.DIM, 7, 3, 3, HubOp.dim 7 2⟩) ∈
      [kakuName KlikAanKlikUitAction.TURN_ON 7,
       kakuName KlikAanKlikUitAction.DIM 7,
       kakuName KlikAanKlikUitAction.TURN_OFF 7] ∧
    has_running_threads ["MainThread", "kakudim7"] 7 = true :=
  claim_C10_thread_names
    ⟨KlikAanKlikUitAction.DIM, 7, 3, 3, HubOp.dim 7 2⟩
    ["MainThread", "kakudim7"] (by decide)
